import Mathlib

/-!
Shallow embedding of the ngrok tunneling subsystem of `configuration.go`
(types `Tunnel`, `TunnelingConfiguration`, `ngrokTunnel` and the functions
`isNgrokRunning`, `startTunnel`, `stopTunnel`, `createTunnel`).

External effects (HTTP calls, `exec.LookPath`, `os.LookupEnv`, process
spawning, reads from the spawned process's stdout pipe) are modelled as
oracle inputs packaged in environment structures; the Lean functions then
mirror the Go control flow over those outcomes.  A Go `panic` (nil-pointer
dereference) is modelled by a dedicated outcome value, since it is an
observable behaviour distinct from returning an error.
-/

namespace IrisTunnel

/-- JSON values occurring in the create-tunnel request document
(`encoding/json` output for the `ngrokTunnel` struct). -/
inductive JValue where
  | jstr (s : String)
  | jbool (b : Bool)
deriving DecidableEq

/-- Go struct `Tunnel` (configuration.go): `Name` and `Addr` fields. -/
structure Tunnel where
  Name : String
  Addr : String
deriving DecidableEq

/-- Go struct `TunnelingConfiguration` (configuration.go), restricted to the
fields read by `startTunnel`/`stopTunnel`/`createTunnel`: `AuthToken`, `Bin`,
`WebInterface`, `Region` (the `Tunnels` slice is not read by these three
functions, which receive the tunnel as an argument). -/
structure TunnelingConfiguration where
  AuthToken : String
  Bin : String
  WebInterface : String
  Region : String
deriving DecidableEq

/-- Go struct `ngrokTunnel` (configuration.go lines 634-640), the
create-tunnel request schema.  Field order and JSON tags as in the source:
`Name`/`name`, `Addr`/`addr`, `Proto`/`proto`, `Auth`/`auth`,
`BindTLS`/`bind_tls`.  None of the tags carries `omitempty`. -/
structure ngrokTunnel where
  Name : String
  Addr : String
  Proto : String
  Auth : String
  BindTLS : Bool
deriving DecidableEq

/-- The JSON document `json.Marshal` produces for a `ngrokTunnel` value:
`encoding/json` emits every exported field in struct order under its tag
name; with no `omitempty` on any tag, zero values (such as `Auth = ""`)
are emitted too. -/
def ngrokTunnel.jsonFields (t : ngrokTunnel) : List (String × JValue) :=
  [("name", .jstr t.Name), ("addr", .jstr t.Addr), ("proto", .jstr t.Proto),
   ("auth", .jstr t.Auth), ("bind_tls", .jbool t.BindTLS)]

/-- The `tunnelAPIRequest` composite literal built at the top of
`startTunnel` (lines 643-648): `Name` and `Addr` from the tunnel,
`Proto = "http"`, `BindTLS = true`; the `Auth` field is not mentioned in
the literal, so it keeps Go's zero value `""`. -/
def mkTunnelAPIRequest (t : Tunnel) : ngrokTunnel :=
  { Name := t.Name, Addr := t.Addr, Proto := "http", Auth := "", BindTLS := true }

/-- A decoded `*http.Response` (only the status code is read by this code). -/
structure HTTPResponse where
  StatusCode : Nat
deriving DecidableEq

/-- Outcome of a Go `http.Get` call, as the pair the caller receives:
`resp` is `none` when the returned `*http.Response` is nil (which is the
case on any network-level failure), and `err` is `none` when the returned
`error` is nil.  A non-nil response together with a non-nil error is also
possible in Go (redirect-policy failure), so all combinations are kept. -/
structure GoHTTPGetResult where
  resp : Option HTTPResponse
  err : Option String
deriving DecidableEq

/-- Go `isNgrokRunning` (lines 627-631):

    resp, err := http.Get(tc.WebInterface)
    resp.Body.Close()
    return err == nil

The result is `Option Bool`: `none` models the nil-pointer panic raised by
`resp.Body.Close()` when `resp` is nil (the statement runs before `err` is
inspected), and `some b` models a normal return of `b = (err == nil)`. -/
def isNgrokRunning (r : GoHTTPGetResult) : Option Bool :=
  match r.resp with
  | none => none
  | some _ => some r.err.isNone

/-- External actions `startTunnel`/`createTunnel` can perform, in the order
they are attempted; used to state ordering and absence properties. -/
inductive Event where
  | probeHealth
  | lookPath
  | lookupEnvNGROK
  | runAuthtoken
  | spawnAgent
  | httpPostCreate
deriving DecidableEq

/-- Which events are network calls: the health probe (`http.Get` in
`isNgrokRunning`) and the create-tunnel `http.Post`. -/
def Event.isNetwork : Event → Bool
  | .probeHealth => true
  | .httpPostCreate => true
  | _ => false

/-- The nested `details` object of the create-tunnel response schema
(`publicAddrOrErrResp.Details`, line 751-753), with its `err` field. -/
structure NgrokDetails where
  err : String
deriving DecidableEq

/-- Go local type `publicAddrOrErrResp` (lines 749-755): `PublicAddr`
(`public_url`), `Details.err`, `ErrMsg` (`msg`). -/
structure PublicAddrOrErrResp where
  PublicAddr : String
  Details : NgrokDetails
  ErrMsg : String
deriving DecidableEq

/-- The error values `createTunnel` can return, one constructor per
`return err` site: `json.Marshal` failure, `http.Post` failure, decoder
failure, and the two `errors.New(errText)` branches. -/
inductive CreateErr where
  | marshalErr (e : String)
  | postErr (e : String)
  | decodeErr (e : String)
  | apiErr (msg : String)
deriving DecidableEq

deriving instance DecidableEq for Except

/-- Oracle outcomes of the three external steps of `createTunnel`:
the `json.Marshal` call, the `http.Post` call, and the
`json.NewDecoder(resp.Body).Decode` call (whose success carries the decoded
`publicAddrOrErrResp`). -/
structure CreateEnv where
  marshalErr : Option String
  postErr : Option String
  decodeResult : Except String PublicAddrOrErrResp
deriving DecidableEq

/-- Go `createTunnel` (lines 736-774).  Returns the error (if any), the
final value of the string `publicAddr` points to, and the trace of external
events.  The Go control flow, in order: marshal the request (error is
returned); `http.Post` (error is returned); decode the body (error is
returned); if `apiResponse.ErrMsg != ""` return `errors.New` of it; else if
`apiResponse.Details.ErrorText != ""` return `errors.New` of it; else
assign `*publicAddr = apiResponse.PublicAddr` and return nil.  The
assignment to `*publicAddr` is the only write to it. -/
def createTunnel (env : CreateEnv) (tunnelAPIRequest : ngrokTunnel)
    (publicAddr : String) : Option CreateErr × String × List Event :=
  match env.marshalErr with
  | some e => (some (.marshalErr e), publicAddr, [])
  | none =>
    match env.postErr with
    | some e => (some (.postErr e), publicAddr, [.httpPostCreate])
    | none =>
      match env.decodeResult with
      | .error e => (some (.decodeErr e), publicAddr, [.httpPostCreate])
      | .ok apiResponse =>
        if apiResponse.ErrMsg ≠ "" then
          (some (.apiErr apiResponse.ErrMsg), publicAddr, [.httpPostCreate])
        else if apiResponse.Details.err ≠ "" then
          (some (.apiErr apiResponse.Details.err), publicAddr, [.httpPostCreate])
        else
          (none, apiResponse.PublicAddr, [.httpPostCreate])

/-- Go `bytes.HasPrefix`-style check used to implement the substring test:
`bytesStartsWith b sub` is true when `sub` is an initial segment of `b`. -/
def bytesStartsWith : List Char → List Char → Bool
  | _, [] => true
  | [], _ :: _ => false
  | b :: bs, s :: ss => b == s && bytesStartsWith bs ss

/-- Go `bytes.Contains(b, sub)`: true when `sub` occurs contiguously
inside `b`. -/
def bytesContains : List Char → List Char → Bool
  | [], sub => sub.isEmpty
  | b :: bs, sub => bytesStartsWith (b :: bs) sub || bytesContains bs sub

/-- The readiness marker `okText := []byte("client session established")`
(line 696). -/
def okText : List Char := "client session established".toList

/-- The readiness loop of `startTunnel` (lines 695-710) over the sequence
of successful `stdout.Read` results: each chunk `p[:n]` is tested on its
own with `bytes.Contains(p[:n], okText)`; on a hit the loop breaks
(modelled as `true`); when the chunks are exhausted the next `Read` returns
an error and the loop returns it (modelled as `false`). -/
def readinessLoop : List (List Char) → Bool
  | [] => false
  | chunk :: rest =>
      if bytesContains chunk okText then true else readinessLoop rest

/-- Modelled from the spec: the constant `StatusNoContent` used by
`stopTunnel` is defined elsewhere in the repository (outside the provided
source file); the spec identifies it as the HTTP no-content status 204. -/
def StatusNoContent : Nat := 204

/-- The error values `stopTunnel` can return, one constructor per
`return` site: `http.NewRequest` failure, `http.DefaultClient.Do` failure,
and the unexpected-status `fmt.Errorf` (carrying the status code). -/
inductive StopErr where
  | newRequestErr (e : String)
  | doErr (e : String)
  | statusErr (code : Nat)
deriving DecidableEq

/-- Oracle outcomes of the two external steps of `stopTunnel`: the
`http.NewRequest` construction and the `http.DefaultClient.Do` round trip
(whose success carries the response). -/
structure StopEnv where
  newRequestErr : Option String
  doResult : Except String HTTPResponse
deriving DecidableEq

/-- Go `stopTunnel` (lines 716-734).  Returns the URL the DELETE request is
built for (`fmt.Sprintf("%s/api/tunnels/%s", tc.WebInterface, t.Name)`) and
the error: `http.NewRequest` error, else `Do` error, else an
unexpected-status error when `resp.StatusCode != StatusNoContent`, else
nil. -/
def stopTunnel (env : StopEnv) (tc : TunnelingConfiguration) (t : Tunnel) :
    String × Option StopErr :=
  let url := tc.WebInterface ++ "/api/tunnels/" ++ t.Name
  match env.newRequestErr with
  | some e => (url, some (.newRequestErr e))
  | none =>
    match env.doResult with
    | .error e => (url, some (.doErr e))
    | .ok resp =>
      if resp.StatusCode ≠ StatusNoContent then
        (url, some (.statusErr resp.StatusCode))
      else (url, none)

/-- The error values `startTunnel` can return before reaching
`createTunnel`, one constructor per `return` site, plus the propagated
`createTunnel` error: the binary-not-found `fmt.Errorf`, the authtoken
`cmd.Run()` error, the `cmd.StdoutPipe()` error, the `cmd.Start()` error,
and a `stdout.Read` error inside the readiness loop. -/
inductive StartErr where
  | binaryNotFound
  | authRunErr (e : String)
  | stdoutPipeErr (e : String)
  | startCmdErr (e : String)
  | readErr (e : String)
  | createErr (e : CreateErr)
deriving DecidableEq

/-- Overall observable outcome of a `startTunnel` call: a nil-pointer
panic (raised inside `isNgrokRunning`, see that definition), an error
return, or a nil return. -/
inductive StartOutcome where
  | panicked
  | err (e : StartErr)
  | ok
deriving DecidableEq

/-- Oracle outcomes of the external steps of `startTunnel`, in the order
the code can attempt them: the health probe `http.Get`, the
`exec.LookPath("ngrok")` search, the `os.LookupEnv("NGROK")` lookup, the
authtoken `cmd.Run()`, `cmd.StdoutPipe()`, `cmd.Start()`, the successive
successful `stdout.Read` chunks, the `Read` error produced once the chunks
are exhausted (e.g. EOF), and the oracle for the nested `createTunnel`
call. -/
structure StartEnv where
  httpGet : GoHTTPGetResult
  lookPathOk : Bool
  ngrokEnv : Option String
  authRunErr : Option String
  stdoutPipeErr : Option String
  startCmdErr : Option String
  stdoutChunks : List (List Char)
  readEndErr : String
  createEnv : CreateEnv
deriving DecidableEq

/-- Binary resolution block of `startTunnel` (lines 651-665):
`ngrokBin := "ngrok"`; when `tc.Bin == ""`, try `exec.LookPath(ngrokBin)`;
on failure try `os.LookupEnv("NGROK")` and fail when it is unset, else use
its value; when `tc.Bin != ""`, use `tc.Bin` verbatim.  Returns the
resolved binary (`none` models the not-found error return) and the events
attempted. -/
def resolveBinary (tc : TunnelingConfiguration) (env : StartEnv) :
    Option String × List Event :=
  if tc.Bin = "" then
    if env.lookPathOk then (some "ngrok", [.lookPath])
    else
      match env.ngrokEnv with
      | none => (none, [.lookPath, .lookupEnvNGROK])
      | some v => (some v, [.lookPath, .lookupEnvNGROK])
  else (some tc.Bin, [])

/-- Authtoken block of `startTunnel` (lines 667-673): only when
`tc.AuthToken != ""` is `exec.Command(ngrokBin, "authtoken", tc.AuthToken)`
run, and its error (if any) returned. -/
def authStep (tc : TunnelingConfiguration) (env : StartEnv) :
    Option String × List Event :=
  if tc.AuthToken = "" then (none, [])
  else (env.authRunErr, [.runAuthtoken])

/-- Argument list of the spawned agent command (lines 677-684):
`start -none -log stdout`, with `-region tc.Region` appended when
`tc.Region != ""`. -/
def spawnArgs (tc : TunnelingConfiguration) : List String :=
  ["start", "-none", "-log", "stdout"] ++
    (if tc.Region ≠ "" then ["-region", tc.Region] else [])

/-- Lifts a `createTunnel` error into the `startTunnel` outcome
(`startTunnel` ends with `return tc.createTunnel(...)`). -/
def resultOfCreate : Option CreateErr → StartOutcome
  | none => .ok
  | some e => .err (.createErr e)

/-- Go `startTunnel` (lines 642-714).  Control flow: build
`tunnelAPIRequest`; call `isNgrokRunning` (panics when `http.Get` returned
a nil response); when it returns true, fall through to `createTunnel`;
when it returns false, resolve the binary (not-found error return), run the
optional authtoken step (error return), take the stdout pipe (error
return), start the command (error return), run the readiness loop (a
`Read` error is returned; finding the marker breaks), then call
`createTunnel`.  Returns the outcome, the final value of the string
`publicAddr` points to, and the trace of attempted external events. -/
def startTunnel (tc : TunnelingConfiguration) (env : StartEnv) (t : Tunnel)
    (publicAddr : String) : StartOutcome × String × List Event :=
  let tunnelAPIRequest := mkTunnelAPIRequest t
  match isNgrokRunning env.httpGet with
  | none => (.panicked, publicAddr, [.probeHealth])
  | some true =>
      let (e, addr, cevs) := createTunnel env.createEnv tunnelAPIRequest publicAddr
      (resultOfCreate e, addr, .probeHealth :: cevs)
  | some false =>
      match resolveBinary tc env with
      | (none, revs) => (.err .binaryNotFound, publicAddr, .probeHealth :: revs)
      | (some _ngrokBin, revs) =>
        match authStep tc env with
        | (some e, aevs) =>
            (.err (.authRunErr e), publicAddr, .probeHealth :: (revs ++ aevs))
        | (none, aevs) =>
          match env.stdoutPipeErr with
          | some e =>
              (.err (.stdoutPipeErr e), publicAddr, .probeHealth :: (revs ++ aevs))
          | none =>
            match env.startCmdErr with
            | some e =>
                (.err (.startCmdErr e), publicAddr,
                 .probeHealth :: (revs ++ aevs ++ [.spawnAgent]))
            | none =>
              if readinessLoop env.stdoutChunks then
                let (e, addr, cevs) :=
                  createTunnel env.createEnv tunnelAPIRequest publicAddr
                (resultOfCreate e, addr,
                 .probeHealth :: (revs ++ aevs ++ [.spawnAgent] ++ cevs))
              else
                (.err (.readErr env.readEndErr), publicAddr,
                 .probeHealth :: (revs ++ aevs ++ [.spawnAgent]))

/-- C1: the claim says a network-level `http.Get` failure makes
`isNgrokRunning` report `false` and never crash.  In the code the failure
outcome of `http.Get` is a nil `*http.Response` together with a non-nil
error, and `resp.Body.Close()` runs before `err` is inspected, so the probe
dereferences the nil response and panics instead of returning `false`:
evaluated at such a failure outcome, `isNgrokRunning` yields the panic
value `none`, not `some false`. -/
theorem isNgrokRunning_panics_on_network_failure :
    isNgrokRunning ⟨none, some "dial tcp 127.0.0.1:4040: connect: connection refused"⟩
      = none := rfl

/-- C2: for every decoded create-tunnel response, `createTunnel` checks the
error fields in fixed precedence: a non-empty `msg` field is returned as an
error first; otherwise a non-empty `details.err` field is returned as an
error; only when both are empty does it succeed. -/
theorem createTunnel_error_precedence (env : CreateEnv) (req : ngrokTunnel)
    (addr : String) (r : PublicAddrOrErrResp)
    (hm : env.marshalErr = none) (hp : env.postErr = none)
    (hd : env.decodeResult = .ok r) :
    (r.ErrMsg ≠ "" → (createTunnel env req addr).1 = some (.apiErr r.ErrMsg)) ∧
    (r.ErrMsg = "" → r.Details.err ≠ "" →
      (createTunnel env req addr).1 = some (.apiErr r.Details.err)) ∧
    (r.ErrMsg = "" → r.Details.err = "" → (createTunnel env req addr).1 = none) := by
  refine ⟨fun h1 => ?_, fun h1 h2 => ?_, fun h1 h2 => ?_⟩
  · simp [createTunnel, hm, hp, hd, h1]
  · simp [createTunnel, hm, hp, hd, h1, h2]
  · simp [createTunnel, hm, hp, hd, h1, h2]

/-- C2 witness: a response whose `msg` field holds a not-ready message is
rejected with exactly that message. -/
theorem createTunnel_error_precedence_witness :
    (createTunnel ⟨none, none, .ok ⟨"", ⟨""⟩, "tunnel session not ready yet"⟩⟩
        (mkTunnelAPIRequest ⟨"MyApp", "localhost:8080"⟩) "prev").1 =
      some (.apiErr "tunnel session not ready yet") :=
  (createTunnel_error_precedence _ _ _ _ rfl rfl rfl).1 (by decide)

/-- C3 counterexample: the claim says that with both error fields empty and
an empty `public_url`, `createTunnel` returns a "no address returned" error
instead of reporting success.  The code performs no such check: on this
response it returns nil and writes the empty string through `publicAddr`. -/
theorem createTunnel_empty_publicAddr_success :
    createTunnel ⟨none, none, .ok ⟨"", ⟨""⟩, ""⟩⟩
        (mkTunnelAPIRequest ⟨"MyApp", "localhost:8080"⟩) "prev" =
      (none, "", [.httpPostCreate]) := rfl

/-- C3 amended: when both `msg` and `details.err` are empty, `createTunnel`
reports success unconditionally and writes the `public_url` value (even when
it is empty) through `publicAddr`; no emptiness check on the public address
is performed. -/
theorem createTunnel_success_unconditional (env : CreateEnv) (req : ngrokTunnel)
    (addr : String) (r : PublicAddrOrErrResp)
    (hm : env.marshalErr = none) (hp : env.postErr = none)
    (hd : env.decodeResult = .ok r)
    (h1 : r.ErrMsg = "") (h2 : r.Details.err = "") :
    (createTunnel env req addr).1 = none ∧
    (createTunnel env req addr).2.1 = r.PublicAddr := by
  simp [createTunnel, hm, hp, hd, h1, h2]

/-- C3 amended witness: a response with empty error fields and empty
`public_url` succeeds and stores the empty string. -/
theorem createTunnel_success_unconditional_witness :
    (createTunnel ⟨none, none, .ok ⟨"", ⟨""⟩, ""⟩⟩
        (mkTunnelAPIRequest ⟨"w", "localhost:9090"⟩) "old").1 = none ∧
    (createTunnel ⟨none, none, .ok ⟨"", ⟨""⟩, ""⟩⟩
        (mkTunnelAPIRequest ⟨"w", "localhost:9090"⟩) "old").2.1 = "" :=
  createTunnel_success_unconditional _ _ _ _ rfl rfl rfl rfl rfl

/-- C4 counterexample: the claim says the readiness loop finds the marker
even when it is split across two consecutive read chunks.  The loop tests
each chunk on its own with `bytes.Contains`, so for the two chunks
`"client session estab"` and `"lished"` the concatenated stream contains
the marker, yet the loop never detects it. -/
theorem readinessLoop_misses_split_marker :
    bytesContains (List.flatten ["client session estab".toList, "lished".toList])
        okText = true ∧
    readinessLoop ["client session estab".toList, "lished".toList] = false :=
  ⟨rfl, rfl⟩

/-- C4 amended: the readiness loop returns success exactly when some single
read chunk contains the marker phrase on its own; a marker split across a
chunk boundary is not detected (the loop then keeps reading until a read
error, which it returns). -/
theorem readinessLoop_eq_any_chunk_contains (chunks : List (List Char)) :
    readinessLoop chunks = chunks.any (fun c => bytesContains c okText) := by
  induction chunks with
  | nil => rfl
  | cons c rest ih =>
      by_cases h : bytesContains c okText = true
      · simp [readinessLoop, h]
      · simp [readinessLoop, h, ih]

/-- C6 counterexample: the claim says the POSTed JSON document holds no
field other than `name`, `addr`, `proto`, `bind_tls`.  The `ngrokTunnel`
struct also has an `Auth` field tagged `json:"auth"` without `omitempty`,
and `startTunnel` leaves it at its zero value, so the marshalled document
additionally carries `"auth": ""`. -/
theorem ngrokTunnel_auth_field_serialized :
    ("auth", JValue.jstr "") ∈
        (mkTunnelAPIRequest ⟨"MyApp", "localhost:8080"⟩).jsonFields ∧
    "auth" ∉ (["name", "addr", "proto", "bind_tls"] : List String) := by
  constructor
  · decide
  · decide

/-- C6 amended: the JSON document POSTed for a tunnel consists exactly of
the fields `name`, `addr`, `proto` with value "http", `auth` with value ""
(the field is never set and its tag lacks `omitempty`), and `bind_tls` with
value true, in that order, with no other fields serialized. -/
theorem ngrokTunnel_jsonFields_of_request (t : Tunnel) :
    (mkTunnelAPIRequest t).jsonFields =
      [("name", .jstr t.Name), ("addr", .jstr t.Addr), ("proto", .jstr "http"),
       ("auth", .jstr ""), ("bind_tls", .jbool true)] := rfl

/-- C10: on every error return of `createTunnel` the string `publicAddr`
points to is unchanged, and it is written (with the decoded `public_url` of
a response whose error fields are empty) exactly when `createTunnel`
returns without error. -/
theorem createTunnel_publicAddr_atomic (env : CreateEnv) (req : ngrokTunnel)
    (addr : String) :
    ((createTunnel env req addr).1 ≠ none →
      (createTunnel env req addr).2.1 = addr) ∧
    ((createTunnel env req addr).1 = none →
      ∃ r, env.decodeResult = .ok r ∧ r.ErrMsg = "" ∧ r.Details.err = "" ∧
        (createTunnel env req addr).2.1 = r.PublicAddr) := by
  rcases env with ⟨me, pe, dr⟩
  cases me with
  | some e => simp [createTunnel]
  | none =>
    cases pe with
    | some e => simp [createTunnel]
    | none =>
      cases dr with
      | error e => simp [createTunnel]
      | ok r =>
        by_cases h1 : r.ErrMsg = ""
        · by_cases h2 : r.Details.err = ""
          · exact ⟨fun hc => absurd (by simp [createTunnel, h1, h2]) hc,
              fun _ => ⟨r, rfl, h1, h2, by simp [createTunnel, h1, h2]⟩⟩
          · simp [createTunnel, h1, h2]
        · simp [createTunnel, h1]

/-- C10 witness: a failed `http.Post` leaves the previous address value in
place. -/
theorem createTunnel_publicAddr_atomic_witness :
    (createTunnel ⟨none, some "connection refused", .error ""⟩
        (mkTunnelAPIRequest ⟨"MyApp", "localhost:8080"⟩) "kept").2.1 = "kept" :=
  (createTunnel_publicAddr_atomic _ _ _).1 (by decide)

/-- Helper: the event trace of `createTunnel` is either empty (marshalling
failed before the POST) or the single create POST. -/
theorem createTunnel_trace_cases (env : CreateEnv) (req : ngrokTunnel)
    (addr : String) :
    (createTunnel env req addr).2.2 = [] ∨
    (createTunnel env req addr).2.2 = [.httpPostCreate] := by
  rcases env with ⟨me, pe, dr⟩
  cases me with
  | some e => simp [createTunnel]
  | none =>
    cases pe with
    | some e => simp [createTunnel]
    | none =>
      cases dr with
      | error e => simp [createTunnel]
      | ok r =>
        by_cases h1 : r.ErrMsg = ""
        · by_cases h2 : r.Details.err = ""
          · simp [createTunnel, h1, h2]
          · simp [createTunnel, h1, h2]
        · simp [createTunnel, h1]

/-- C8: when the health probe answers (a response and a nil error),
`startTunnel` performs no binary resolution, no auth sub-invocation and no
spawn: its result is exactly that of the `createTunnel` call, its trace the
probe followed by the `createTunnel` events; moreover, for every call
whatsoever, a spawn occurs in the trace only when `isNgrokRunning` reported
the agent not running. -/
theorem startTunnel_health_short_circuit (tc : TunnelingConfiguration)
    (env : StartEnv) (t : Tunnel) (addr : String) (resp : HTTPResponse)
    (hresp : env.httpGet.resp = some resp) (herr : env.httpGet.err = none) :
    startTunnel tc env t addr =
      (resultOfCreate (createTunnel env.createEnv (mkTunnelAPIRequest t) addr).1,
       (createTunnel env.createEnv (mkTunnelAPIRequest t) addr).2.1,
       .probeHealth :: (createTunnel env.createEnv (mkTunnelAPIRequest t) addr).2.2) ∧
    Event.lookPath ∉ (startTunnel tc env t addr).2.2 ∧
    Event.lookupEnvNGROK ∉ (startTunnel tc env t addr).2.2 ∧
    Event.runAuthtoken ∉ (startTunnel tc env t addr).2.2 ∧
    Event.spawnAgent ∉ (startTunnel tc env t addr).2.2 ∧
    (∀ tc₂ env₂ t₂ addr₂,
      Event.spawnAgent ∈ (startTunnel tc₂ env₂ t₂ addr₂).2.2 →
      isNgrokRunning env₂.httpGet = some false) := by
  have hrun : isNgrokRunning env.httpGet = some true := by
    simp [isNgrokRunning, hresp, herr]
  rcases hcr : createTunnel env.createEnv (mkTunnelAPIRequest t) addr
    with ⟨e, addr2, cevs⟩
  have htr : startTunnel tc env t addr =
      (resultOfCreate e, addr2, .probeHealth :: cevs) := by
    simp [startTunnel, hrun, hcr]
  have hcev : cevs = [] ∨ cevs = [.httpPostCreate] := by
    have h := createTunnel_trace_cases env.createEnv (mkTunnelAPIRequest t) addr
    rw [hcr] at h
    exact h
  refine ⟨by simp [htr, hcr], ?_, ?_, ?_, ?_, ?_⟩
  · rw [htr]; rcases hcev with h | h <;> simp [h]
  · rw [htr]; rcases hcev with h | h <;> simp [h]
  · rw [htr]; rcases hcev with h | h <;> simp [h]
  · rw [htr]; rcases hcev with h | h <;> simp [h]
  · intro tc₂ env₂ t₂ addr₂ hmem
    rcases hg : isNgrokRunning env₂.httpGet with _ | b
    · simp [startTunnel, hg] at hmem
    · cases b
      · rfl
      · exfalso
        rcases h2 : createTunnel env₂.createEnv (mkTunnelAPIRequest t₂) addr₂
          with ⟨e₂, a₂, cevs₂⟩
        have hc := createTunnel_trace_cases env₂.createEnv (mkTunnelAPIRequest t₂) addr₂
        rw [h2] at hc
        simp at hc
        simp [startTunnel, hg, h2] at hmem
        rcases hc with hc | hc <;> rw [hc] at hmem <;> simp at hmem

/-- C8 witness: with a healthy probe (status 200, nil error) and a create
response carrying a public URL, `startTunnel` goes straight to the create
call: the trace is the probe followed by the POST and no spawn occurs. -/
theorem startTunnel_health_short_circuit_witness :
    startTunnel ⟨"", "", "http://127.0.0.1:4040", ""⟩
        ⟨⟨some ⟨200⟩, none⟩, true, none, none, none, none, [], "",
         ⟨none, none, .ok ⟨"https://abc123.example.com", ⟨""⟩, ""⟩⟩⟩
        ⟨"MyApp", "localhost:8080"⟩ "" =
      (.ok, "https://abc123.example.com", [.probeHealth, .httpPostCreate]) :=
  (startTunnel_health_short_circuit _ _ _ _ ⟨200⟩ rfl rfl).1

/-- C5 counterexample: the claim says the binary-not-found failure occurs
before any network call is attempted.  In the code the health probe — a
network call — always runs first, and binary resolution is reached only
after it: at a concrete input where the probe returns false and no binary
can be resolved, `startTunnel` fails with binary-not-found with the probe
(a network event) already in its trace. -/
theorem startTunnel_probes_before_binary_resolution :
    (startTunnel ⟨"", "", "http://127.0.0.1:4040", ""⟩
        ⟨⟨some ⟨200⟩, some "Get /: stopped after 10 redirects"⟩, false, none,
         none, none, none, [], "", ⟨none, none, .error ""⟩⟩
        ⟨"MyApp", "localhost:8080"⟩ "").1 = .err .binaryNotFound ∧
    Event.probeHealth ∈
      (startTunnel ⟨"", "", "http://127.0.0.1:4040", ""⟩
        ⟨⟨some ⟨200⟩, some "Get /: stopped after 10 redirects"⟩, false, none,
         none, none, none, [], "", ⟨none, none, .error ""⟩⟩
        ⟨"MyApp", "localhost:8080"⟩ "").2.2 ∧
    Event.probeHealth.isNetwork = true := by
  refine ⟨rfl, ?_, rfl⟩
  decide

/-- C5 amended: when the health probe reports the agent not running, the
Bin path is unset, the agent binary is not on the search path and the NGROK
environment variable is unset, `startTunnel` fails with binary-not-found;
the only network call in its trace is the initial health probe — no
create-tunnel call, no auth sub-invocation and no spawn is attempted. -/
theorem startTunnel_binaryNotFound_after_probe_only (tc : TunnelingConfiguration)
    (env : StartEnv) (t : Tunnel) (addr : String)
    (hrun : isNgrokRunning env.httpGet = some false)
    (hbin : tc.Bin = "") (hlp : env.lookPathOk = false)
    (henv : env.ngrokEnv = none) :
    startTunnel tc env t addr =
      (.err .binaryNotFound, addr, [.probeHealth, .lookPath, .lookupEnvNGROK]) ∧
    (startTunnel tc env t addr).2.2.filter Event.isNetwork = [.probeHealth] := by
  have h1 : startTunnel tc env t addr =
      (.err .binaryNotFound, addr, [.probeHealth, .lookPath, .lookupEnvNGROK]) := by
    simp [startTunnel, hrun, resolveBinary, hbin, hlp, henv]
  exact ⟨h1, by rw [h1]; rfl⟩

/-- C5 amended witness: concrete instance of the binary-not-found path. -/
theorem startTunnel_binaryNotFound_after_probe_only_witness :
    startTunnel ⟨"", "", "http://127.0.0.1:4040", ""⟩
        ⟨⟨some ⟨308⟩, some "Get /: stopped after 10 redirects"⟩, false, none,
         none, none, none, [], "", ⟨none, none, .error ""⟩⟩
        ⟨"MyApp", "localhost:8080"⟩ "" =
      (.err .binaryNotFound, "", [.probeHealth, .lookPath, .lookupEnvNGROK]) :=
  (startTunnel_binaryNotFound_after_probe_only
    ⟨"", "", "http://127.0.0.1:4040", ""⟩
    ⟨⟨some ⟨308⟩, some "Get /: stopped after 10 redirects"⟩, false, none,
     none, none, none, [], "", ⟨none, none, .error ""⟩⟩
    ⟨"MyApp", "localhost:8080"⟩ "" (by decide) rfl rfl rfl).1

/-- C7: binary resolution follows the fixed fallback order: a non-empty Bin
path is used verbatim (no search); otherwise the search path is consulted
for "ngrok"; if that fails, the NGROK environment variable is used when
set; and when it too is unset, resolution fails and `startTunnel` (on the
not-running path) returns the binary-not-found error. -/
theorem resolveBinary_fallback_order (tc : TunnelingConfiguration)
    (env : StartEnv) :
    (tc.Bin ≠ "" → resolveBinary tc env = (some tc.Bin, [])) ∧
    (tc.Bin = "" → env.lookPathOk = true →
      resolveBinary tc env = (some "ngrok", [.lookPath])) ∧
    (tc.Bin = "" → env.lookPathOk = false → ∀ v, env.ngrokEnv = some v →
      resolveBinary tc env = (some v, [.lookPath, .lookupEnvNGROK])) ∧
    (tc.Bin = "" → env.lookPathOk = false → env.ngrokEnv = none →
      resolveBinary tc env = (none, [.lookPath, .lookupEnvNGROK]) ∧
      ∀ t addr, isNgrokRunning env.httpGet = some false →
        (startTunnel tc env t addr).1 = .err .binaryNotFound) := by
  refine ⟨fun h => ?_, fun hb hl => ?_, fun hb hl v hv => ?_, fun hb hl hv => ⟨?_, ?_⟩⟩
  · simp [resolveBinary, h]
  · simp [resolveBinary, hb, hl]
  · simp [resolveBinary, hb, hl, hv]
  · simp [resolveBinary, hb, hl, hv]
  · intro t addr hrun
    simp [startTunnel, hrun, resolveBinary, hb, hl, hv]

/-- C7 witness: a configured Bin path is used verbatim. -/
theorem resolveBinary_fallback_order_witness :
    resolveBinary ⟨"", "/opt/ngrok", "http://127.0.0.1:4040", ""⟩
        ⟨⟨some ⟨200⟩, none⟩, false, none, none, none, none, [], "",
         ⟨none, none, .error ""⟩⟩ =
      (some "/opt/ngrok", []) :=
  (resolveBinary_fallback_order _ _).1 (by decide)

/-- C9: `stopTunnel` targets the URL `<WebInterface>/api/tunnels/<name>`,
and — once a response is obtained — returns no error exactly when the
status is 204 (no content), while any other status yields an error carrying
that status code. -/
theorem stopTunnel_delete_semantics (env : StopEnv)
    (tc : TunnelingConfiguration) (t : Tunnel) (resp : HTTPResponse)
    (hreq : env.newRequestErr = none) (hdo : env.doResult = .ok resp) :
    (stopTunnel env tc t).1 = tc.WebInterface ++ "/api/tunnels/" ++ t.Name ∧
    ((stopTunnel env tc t).2 = none ↔ resp.StatusCode = 204) ∧
    (resp.StatusCode ≠ 204 →
      (stopTunnel env tc t).2 = some (.statusErr resp.StatusCode)) := by
  by_cases h : resp.StatusCode = 204
  · refine ⟨?_, ?_, fun hc => absurd h hc⟩
    · simp [stopTunnel, hreq, hdo, StatusNoContent, h]
    · simp [stopTunnel, hreq, hdo, StatusNoContent, h]
  · refine ⟨?_, ?_, fun _ => ?_⟩
    · simp [stopTunnel, hreq, hdo, StatusNoContent, h]
    · simp [stopTunnel, hreq, hdo, StatusNoContent, h]
    · simp [stopTunnel, hreq, hdo, StatusNoContent, h]

/-- C9 witness: at the concrete configuration and tunnel of the spec's
example, a 200 response yields the status-carrying error and the URL is the
named sub-resource. -/
theorem stopTunnel_delete_semantics_witness :
    (stopTunnel ⟨none, .ok ⟨200⟩⟩
        ⟨"", "", "http://127.0.0.1:4040", ""⟩ ⟨"MyApp", "localhost:8080"⟩).1 =
      "http://127.0.0.1:4040/api/tunnels/MyApp" ∧
    (stopTunnel ⟨none, .ok ⟨200⟩⟩
        ⟨"", "", "http://127.0.0.1:4040", ""⟩ ⟨"MyApp", "localhost:8080"⟩).2 =
      some (.statusErr 200) :=
  ⟨(stopTunnel_delete_semantics _ _ _ ⟨200⟩ rfl rfl).1,
   (stopTunnel_delete_semantics _ _ _ ⟨200⟩ rfl rfl).2.2 (by decide)⟩

end IrisTunnel
